import Mathlib

/-!
Shallow embedding of the Info-Guard orchestration core, translated from the
repository sources:

* `RedisService.set` / `RedisService.get` — the Node.js Redis cache wrapper
  (key/value with expiry in seconds; expiry is checked on read).
* `AnalysisService._calculate_overall_score` and
  `AnalysisService.analyze_video_realtime` — the Python analysis service.
* `router.post('/analyze')` in the Node.js server — cache check, record
  creation, and the background job that commits randomized scores.
* `handleAnalysisRequest` — the WebSocket analysis handler of the backend
  server (fetch data, run analysis, report completion or error).
* `BatchAnalysisService.process_videos` — batch processing that collects
  `task.result()` over completed futures.
* `setupSocketIO` / `emitAnalysisProgress` / `emitAnalysisComplete` — the
  Socket.IO progress hub (room join on subscribe, room broadcast on emit).
* `InfoGuardBackgroundService.generateMockAnalysis` — the Chrome extension's
  offline mock result generator.
* A session state machine and `cancel` operation modelled from the spec,
  because `handle_cancel_analysis` is referenced by the WebSocket endpoint
  but defined nowhere in the sources.

Machine floats are modelled as rationals; `Math.random()` and Python's
`random` draws are modelled as explicit rational parameters in `[0,1)`.
JSON serialization round-trips (`JSON.stringify` / `JSON.parse`) are
modelled as the identity on the stored value.
-/

namespace InfoGuard

/-! ## Result Cache — `RedisService` (src/unnamed/part_001, `set`/`get`)

The store maps a key to a value plus an absolute expiry instant
(`now + expireSeconds` at write time, Redis `SET ... EX`).  A `get` returns
the value only while the current time is strictly before the expiry instant;
an absent or expired key yields `none` (expiry is passive, checked on read).
-/

structure RedisState (α : Type) where
  store : List (String × α × Nat)
deriving Repr

namespace RedisService

/-- `set(key, value, expireSeconds)`: stores `JSON.stringify(value)` under
`key` with a time-to-live, overwriting any previous entry for the key.
The JS method returns `true` on success; transport errors are outside the
model. -/
def set {α : Type} (st : RedisState α) (now : Nat) (key : String) (value : α)
    (expireSeconds : Nat) : RedisState α :=
  ⟨(key, value, now + expireSeconds) :: st.store.filter (fun e => e.1 ≠ key)⟩

/-- `get(key)`: returns the parsed value, or `null` when the key is absent
or its time-to-live has elapsed. -/
def get {α : Type} (st : RedisState α) (now : Nat) (key : String) : Option α :=
  match st.store.find? (fun e => e.1 = key) with
  | some (_, v, expiresAt) => if now < expiresAt then some v else none
  | none => none

end RedisService

/-! ## Overall score — `AnalysisService._calculate_overall_score`
(src/unnamed/part_000)

Fixed weights `sentiment 0.2, bias 0.4, credibility 0.4`; the bias score is
inverted (`100 - bias_score`, lower bias means a higher contribution); absent
scores default to `50`; the result is rounded to two decimals.  Python's
`round(x, 2)` is modelled as half-up rounding to two decimals (the
difference to round-half-even only shows at exact half values, which none of
the statements below touch).
-/

/-- Rounding to two decimal places, modelling Python `round(x, 2)`. -/
def round2 (q : ℚ) : ℚ := (⌊q * 100 + 1/2⌋ : ℚ) / 100

/-- `_calculate_overall_score(sentiment_result, bias_result,
credibility_result)`: each argument is the dimension's score when the result
dict carries one (`dict.get(key, 50)` supplies the default `50`). -/
def calculate_overall_score (sentiment_result bias_result credibility_result :
    Option ℚ) : ℚ :=
  let sentiment_score := sentiment_result.getD 50
  let bias_score := 100 - bias_result.getD 50
  let credibility_score := credibility_result.getD 50
  round2 (sentiment_score * (2/10) + bias_score * (4/10) +
    credibility_score * (4/10))

/-- Modelled from the spec (refinement target for C2): `overall_score` is the
weighted sum of the stage scores over exactly the requested stages, weights
re-normalized to sum to 1 over those stages.  `entries` lists one
`(weight, score)` pair per requested stage. -/
def spec_overall_score (entries : List (ℚ × ℚ)) : ℚ :=
  (entries.map (fun p => p.1 * p.2)).sum / (entries.map Prod.fst).sum

/-! ## Node.js analyze route — `router.post('/analyze')`
(src/src/nodejs-server/src/api/routes/analysis.js)

The route (after express-validator input checks, which are outside the
claims) looks up `analysis:<videoUrl>` in Redis.  On a hit it answers with
the cached analysis id and result, `status: 'completed'`, `cached: true`,
creating nothing and scheduling nothing.  On a miss it creates a fresh
`analysis` row in `pending` state with a fresh id and schedules a background
job (the `setTimeout` body) before answering `202` with `status: 'pending'`.
The background job commits four `Math.random() * 100` scores; the random
draws are explicit parameters here.
-/

/-- The four scores the background job commits
(`credibility`, `bias`, `factuality`, `overall`). -/
structure NodeResult where
  credibility : ℚ
  bias : ℚ
  factuality : ℚ
  overall : ℚ
deriving DecidableEq, Repr

/-- What the route caches on completion: `{analysisId, result}`. -/
structure CachedAnalysis where
  analysisId : Nat
  result : NodeResult
deriving DecidableEq, Repr

/-- One row of the `analysis` table, as the route creates and updates it. -/
structure AnalysisRecord where
  id : Nat
  videoUrl : String
  userId : Option String
  status : String
  progress : Nat
  result : Option NodeResult
  error : Option String
deriving DecidableEq, Repr

/-- Server-side state the route touches: the Redis cache, the `analysis`
table, and the id generator backing `prisma.analysis.create`. -/
structure ServerState where
  cache : RedisState CachedAnalysis
  analyses : List AnalysisRecord
  nextId : Nat

/-- The response body of `POST /analyze`. -/
inductive AnalyzeResponse
  | cached (analysisId : Nat) (result : NodeResult)
  | accepted (analysisId : Nat)
deriving DecidableEq, Repr

/-- A scheduled background job (the route's `setTimeout` body), identified
by the analysis row it will update and the url in its closure. -/
structure BackgroundJob where
  analysisId : Nat
  videoUrl : String
deriving DecidableEq, Repr

/-- Four successive `Math.random()` draws, each in `[0,1)`. -/
structure RandomDraws where
  r1 : ℚ
  r2 : ℚ
  r3 : ℚ
  r4 : ℚ
deriving DecidableEq, Repr

/-- The result object the background job builds: each score is an
independent `Math.random() * 100` draw.  `videoUrl` is in the closure's
scope but unused by the computation. -/
def backgroundJobResult (videoUrl : String) (d : RandomDraws) : NodeResult :=
  { credibility := d.r1 * 100
    bias := d.r2 * 100
    factuality := d.r3 * 100
    overall := d.r4 * 100 }

/-- `router.post('/analyze')`: cache check, then either the cached answer or
a fresh `pending` analysis row plus a scheduled background job. -/
def postAnalyze (st : ServerState) (now : Nat) (videoUrl : String)
    (userId : Option String) :
    ServerState × AnalyzeResponse × Option BackgroundJob :=
  let cacheKey := "analysis:" ++ videoUrl
  match RedisService.get st.cache now cacheKey with
  | some c => (st, .cached c.analysisId c.result, none)
  | none =>
      let analysis : AnalysisRecord :=
        { id := st.nextId, videoUrl := videoUrl, userId := userId
          status := "pending", progress := 0, result := none, error := none }
      ({ st with analyses := st.analyses ++ [analysis], nextId := st.nextId + 1 },
        .accepted analysis.id, some ⟨analysis.id, videoUrl⟩)

/-! ## Chrome extension offline mock —
`InfoGuardBackgroundService.generateMockAnalysis` (src/unnamed/part_003)

Builds a mock result from random draws: `baseScore = 60 + random()*30`,
`bias = floor(20 + random()*30)`, `sentiment = 0.3 + random()*0.4`,
`content_quality = 0.5 + random()*0.4`, with `fact_check` and
`source_reliability` derived from `baseScore`.  The `videoData` argument is
never read.  The wall-clock `timestamp` is a parameter; the explanation and
model-version strings are constants.
-/

/-- The video metadata the extension passes around. -/
structure VideoData where
  title : String
  description : String
  channel : String
  url : String
deriving DecidableEq, Repr

/-- Four successive random draws used by the mock generator, each in `[0,1)`. -/
structure MockDraws where
  d1 : ℚ
  d2 : ℚ
  d3 : ℚ
  d4 : ℚ
deriving DecidableEq, Repr

/-- The mock analysis result object. -/
structure MockAnalysis where
  credibility_score : ℤ
  bias_score : ℤ
  sentiment_score : ℚ
  content_quality : ℚ
  fact_check_score : ℤ
  source_reliability : ℤ
  explanation : String
  timestamp : Nat
  model_version : String
deriving DecidableEq, Repr

/-- `generateMockAnalysis(videoData)` with the random draws and clock made
explicit.  `Math.floor` is `Int.floor`. -/
def generateMockAnalysis (videoData : Option VideoData) (now : Nat)
    (d : MockDraws) : MockAnalysis :=
  let baseScore : ℚ := 60 + d.d1 * 30
  { credibility_score := ⌊baseScore⌋
    bias_score := ⌊20 + d.d2 * 30⌋
    sentiment_score := 3/10 + d.d3 * (4/10)
    content_quality := 1/2 + d.d4 * (4/10)
    fact_check_score := ⌊baseScore - 10⌋
    source_reliability := ⌊baseScore - 5⌋
    explanation := "이 영상은 AI 기반 분석을 통해 신뢰도가 평가되었습니다. 편향성과 사실 확인을 통해 종합적인 신뢰도를 제공합니다."
    timestamp := now
    model_version := "mock-1.0.0" }

/-- The score fields of a mock result (everything except the constant
strings and the wall-clock timestamp). -/
def MockAnalysis.scores (m : MockAnalysis) : ℤ × ℤ × ℚ × ℚ × ℤ × ℤ :=
  (m.credibility_score, m.bias_score, m.sentiment_score, m.content_quality,
    m.fact_check_score, m.source_reliability)

/-! ## Realtime progress — `AnalysisService.analyze_video_realtime`
(src/unnamed/part_000)

An async generator that yields a fixed sequence of progress dicts.  The
yielded `step`/`progress` payloads are hardcoded constants: they do not
depend on the video id, on any requested-stage subset (the method accepts
none), or on the values the awaited service calls return (those results are
never used in a yield), so the event stream is this fixed list.
-/

/-- One yielded progress dict: `{"step": ..., "progress": ...}`. -/
structure RealtimeEvent where
  step : String
  progress : Nat
deriving DecidableEq, Repr

/-- `analyze_video_realtime(video_id)`: the sequence of yielded events. -/
def analyze_video_realtime (video_id : String) : List RealtimeEvent :=
  [⟨"started", 0⟩, ⟨"collecting_data", 20⟩, ⟨"sentiment_analysis", 40⟩,
    ⟨"bias_detection", 60⟩, ⟨"credibility_analysis", 80⟩, ⟨"completed", 100⟩]

/-- The intermediate stage events of a realtime run (everything strictly
between the `started` and `completed` yields). -/
def stageEvents (evs : List RealtimeEvent) : List RealtimeEvent :=
  evs.filter (fun e => e.step ≠ "started" ∧ e.step ≠ "completed")

/-! ## WebSocket analysis handler — `handleAnalysisRequest`
(src/unnamed/part_013)

Validates that a url or id is present, sends `analysis_started`, fetches the
video data, runs the analysis service once, and sends `analysis_completed`
with the result — any thrown error instead produces a single `error`
message.  `analyzeVideo` is modelled as a per-attempt behaviour
(`Nat → Except ...`) so that the number of invocations is observable; the
handler only ever invokes attempt `0`.  The returned `Nat` counts the
`analyzeVideo` invocations made.
-/

/-- A message the handler sends over the socket. -/
inductive WsOut (ρ : Type)
  | analysis_started (videoUrl videoId : Option String)
  | analysis_completed (result : ρ)
  | error (message : String)
deriving DecidableEq, Repr

/-- `handleAnalysisRequest(ws, data)`: the messages sent, paired with how
many times `analysisService.analyzeVideo` was invoked. -/
def handleAnalysisRequest {π ρ : Type} (videoUrl videoId : Option String)
    (getVideoData : Except String π)
    (analyzeVideo : Nat → Except String ρ) : List (WsOut ρ) × Nat :=
  if videoUrl = none ∧ videoId = none then
    ([.error "videoUrl or videoId is required"], 0)
  else
    match getVideoData with
    | .error e => ([.analysis_started videoUrl videoId, .error e], 0)
    | .ok _ =>
        match analyzeVideo 0 with
        | .error e => ([.analysis_started videoUrl videoId, .error e], 1)
        | .ok r => ([.analysis_started videoUrl videoId,
            .analysis_completed r], 1)

/-! ## Batch processing — `BatchAnalysisService.process_videos`
(src/unnamed/part_028)

`results = [task.result() for task in as_completed(tasks)]`: the item
outcomes are consumed in completion order (the parameter lists them in that
order); `task.result()` re-raises a failed task's exception, which aborts
the whole comprehension — so the call either returns every item's result or
raises the first failure it reaches.
-/

/-- `process_videos(urls)` applied to the completion-ordered per-item
outcomes. -/
def process_videos {ρ : Type} :
    List (Except String ρ) → Except String (List ρ)
  | [] => .ok []
  | .error e :: _ => .error e
  | .ok r :: rest => (process_videos rest).map (fun rs => r :: rs)

/-! ## Socket.IO progress hub — `setupSocketIO`, `emitAnalysisProgress`,
`emitAnalysisComplete` (src/src/nodejs-server/src/api/routes/user.js)

`subscribe_analysis` merely joins the socket to the room
`analysis_<analysisId>` (no session-state check, no event replay);
`unsubscribe_analysis` leaves it.  An emit delivers the event to every
socket currently in the room, in emission order.  Rooms and per-socket
inboxes are total maps keyed by analysis id and socket id.
-/

abbrev SocketId := String
abbrev AnalysisId := String

/-- An event the hub emits to a room. -/
inductive SocketEvent
  | analysis_progress (analysisId : AnalysisId) (progressPct : Nat)
      (status message : String)
  | analysis_complete (analysisId : AnalysisId) (result : String)
deriving DecidableEq, Repr

/-- The room an event is emitted to (`analysis_<id>`, keyed by the id). -/
def SocketEvent.room : SocketEvent → AnalysisId
  | .analysis_progress aid _ _ _ => aid
  | .analysis_complete aid _ => aid

/-- Hub state: room membership and what each socket has received. -/
structure HubState where
  rooms : AnalysisId → List SocketId
  inboxes : SocketId → List SocketEvent

/-- `socket.on('subscribe_analysis', ...)`: `socket.join` adds the socket to
the room (a no-op when it is already a member). -/
def subscribeAnalysis (st : HubState) (sid : SocketId) (aid : AnalysisId) :
    HubState :=
  let members := st.rooms aid
  let joined := if sid ∈ members then members else members ++ [sid]
  { st with rooms := Function.update st.rooms aid joined }

/-- Deliver one event to each listed socket in turn (Socket.IO room emit). -/
def deliver (st : HubState) : List SocketId → SocketEvent → HubState
  | [], _ => st
  | sid :: rest, ev =>
      let inbox := st.inboxes sid ++ [ev]
      deliver { st with inboxes := Function.update st.inboxes sid inbox } rest ev

/-- `io.to('analysis_' + analysisId).emit(...)` for either emit helper:
delivery to every current member of the room. -/
def emitEvent (st : HubState) (ev : SocketEvent) : HubState :=
  deliver st (st.rooms ev.room) ev

/-- A sequence of emissions, in program order. -/
def runEmits (st : HubState) (evs : List SocketEvent) : HubState :=
  evs.foldl emitEvent st

/-! ## Session lifecycle and `cancel` — modelled from the spec

The WebSocket endpoint (src/feature/06-API-통합-구현-계획.md) dispatches the
`cancel_analysis` message to `handle_cancel_analysis`, but that function is
defined nowhere in the sources; `WebSocketManager.disconnect` only cancels
the stored asyncio task.  The session state machine and the `cancel`
operation are therefore modelled from the spec (§4.2, §4.1).
-/

/-- Session states: `Pending -> Running -> {Completed, Failed, Cancelled}`. -/
inductive SessionState
  | Pending
  | Running
  | Completed
  | Failed
  | Cancelled
deriving DecidableEq, Repr

/-- `Completed`, `Failed` and `Cancelled` are terminal; `Pending` and
`Running` are not. -/
def SessionState.isTerminal : SessionState → Bool
  | .Pending => false
  | .Running => false
  | .Completed => true
  | .Failed => true
  | .Cancelled => true

/-- Modelled from the spec: `cancel(session_id) -> bool` transitions a
`Pending`/`Running` session to `Cancelled` and returns true; it returns
false and changes nothing when the session is already terminal. -/
def cancelSession (s : SessionState) : SessionState × Bool :=
  if s.isTerminal then (s, false) else (.Cancelled, true)

/-- Modelled from the spec: the lifecycle transitions of §4.2 — pickup
(`Pending → Running`), completion or failure from `Running`, and
cooperative cancellation of any non-terminal session; terminal states are
irreversible (they have no outgoing transition). -/
inductive SessionStep : SessionState → SessionState → Prop
  | pickup : SessionStep .Pending .Running
  | complete : SessionStep .Running .Completed
  | fail : SessionStep .Running .Failed
  | cancelPending : SessionStep .Pending .Cancelled
  | cancelRunning : SessionStep .Running .Cancelled

/-- The empty initial server state (empty cache, empty `analysis` table). -/
def initialServerState : ServerState := ⟨⟨[]⟩, [], 0⟩

/-! ## Theorems -/

/-- Claim C6: a `put(content_id, r, ttl)` followed immediately by
`get(content_id)` returns `r`; once the ttl has elapsed, `get(content_id)`
returns `none`; and `get` returns `none` whenever the entry is absent —
expiry is checked passively on the read (no sweep is modelled or needed). -/
theorem C6_cache_roundtrip {α : Type} (st : RedisState α) (now later : Nat)
    (key : String) (v : α) (ttl : Nat) (httl : 0 < ttl) :
    RedisService.get (RedisService.set st now key v ttl) now key = some v ∧
    (now + ttl ≤ later →
      RedisService.get (RedisService.set st now key v ttl) later key = none) ∧
    (∀ st' : RedisState α, (∀ e ∈ st'.store, e.1 ≠ key) →
      RedisService.get st' now key = none) := by
  refine ⟨?_, fun hlate => ?_, fun st' habsent => ?_⟩
  · unfold RedisService.set RedisService.get
    rw [List.find?_cons_of_pos _ (by simp)]
    simp [Nat.lt_add_of_pos_right httl]
  · unfold RedisService.set RedisService.get
    rw [List.find?_cons_of_pos _ (by simp)]
    have hexp : ¬ later < now + ttl := by omega
    simp [hexp]
  · have hfind : st'.store.find? (fun e => decide (e.1 = key)) = none := by
      apply List.find?_eq_none.mpr
      intro e he
      simpa using habsent e he
    simp [RedisService.get, hfind]

/-- Closed witness for C6 at a concrete store, key, value and ttl. -/
theorem C6_cache_roundtrip_witness :
    RedisService.get (RedisService.set ⟨[]⟩ 5 "analysis:v" (37 : Nat) 3600) 5
        "analysis:v" = some 37 ∧
    RedisService.get (RedisService.set ⟨[]⟩ 5 "analysis:v" (37 : Nat) 3600) 3605
        "analysis:v" = none ∧
    RedisService.get (⟨[]⟩ : RedisState Nat) 5 "analysis:v" = none := by
  obtain ⟨h1, h2, h3⟩ :=
    C6_cache_roundtrip (⟨[]⟩ : RedisState Nat) 5 3605 "analysis:v" 37 3600
      (by decide)
  exact ⟨h1, h2 (by decide), h3 ⟨[]⟩ (by simp)⟩

/-- Claim C2 as written is false: the committed overall score is not the
re-normalized weighted sum of the stage scores.  With stage scores
`sentiment = 100`, `bias = 0`, `credibility = 100` the weighted sum over the
three requested dimensions (weights `0.2/0.4/0.4`, already summing to 1) is
`60`, but `_calculate_overall_score` yields `100`, because it substitutes
`100 - bias_score` for the bias dimension. -/
theorem C2_counterexample :
    calculate_overall_score (some 100) (some 0) (some 100) = 100 ∧
    spec_overall_score [(2/10, 100), (4/10, 0), (4/10, 100)] = 60 ∧
    calculate_overall_score (some 100) (some 0) (some 100) ≠
      spec_overall_score [(2/10, 100), (4/10, 0), (4/10, 100)] := by
  have hcode : calculate_overall_score (some 100) (some 0) (some 100) = 100 := by
    show round2 (100 * (2/10) + (100 - 0) * (4/10) + 100 * (4/10)) = 100
    unfold round2
    have hval : ⌊((100 * (2/10) + (100 - 0) * (4/10) + 100 * (4/10)) * 100
        + 1/2 : ℚ)⌋ = 10000 := by
      rw [Int.floor_eq_iff]
      constructor <;> norm_num
    rw [hval]
    norm_num
  have hspec : spec_overall_score [(2/10, 100), (4/10, 0), (4/10, 100)] = 60 := by
    simp [spec_overall_score]
    norm_num
  refine ⟨hcode, hspec, ?_⟩
  rw [hcode, hspec]
  norm_num

/-- Claim C2 amended: `_calculate_overall_score` is the fixed weighted sum
`0.2·sentiment + 0.4·(100 − bias) + 0.4·credibility` over all three
dimensions (no requested-stage subsetting; the bias score enters inverted),
rounded to two decimals — and this value lies in `[0, 100]` whenever each
input score lies in `[0, 100]`. -/
theorem C2_amended (s b c : ℚ) (hs0 : 0 ≤ s) (hs1 : s ≤ 100) (hb0 : 0 ≤ b)
    (hb1 : b ≤ 100) (hc0 : 0 ≤ c) (hc1 : c ≤ 100) :
    calculate_overall_score (some s) (some b) (some c) =
      round2 (s * (2/10) + (100 - b) * (4/10) + c * (4/10)) ∧
    0 ≤ calculate_overall_score (some s) (some b) (some c) ∧
    calculate_overall_score (some s) (some b) (some c) ≤ 100 := by
  have hq0 : 0 ≤ s * (2/10) + (100 - b) * (4/10) + c * (4/10) := by nlinarith
  have hq1 : s * (2/10) + (100 - b) * (4/10) + c * (4/10) ≤ 100 := by nlinarith
  have hrepr : calculate_overall_score (some s) (some b) (some c) =
      round2 (s * (2/10) + (100 - b) * (4/10) + c * (4/10)) := rfl
  refine ⟨hrepr, ?_, ?_⟩
  · rw [hrepr]
    unfold round2
    have hf : (0:ℤ) ≤ ⌊(s * (2/10) + (100 - b) * (4/10) + c * (4/10)) * 100
        + 1/2⌋ := Int.floor_nonneg.mpr (by linarith)
    have hf' : (0:ℚ) ≤ (⌊(s * (2/10) + (100 - b) * (4/10) + c * (4/10)) * 100
        + 1/2⌋ : ℚ) := by exact_mod_cast hf
    positivity
  · rw [hrepr]
    unfold round2
    rw [div_le_iff₀ (by norm_num : (0:ℚ) < 100)]
    have hmono : ⌊(s * (2/10) + (100 - b) * (4/10) + c * (4/10)) * 100 + 1/2⌋ ≤
        ⌊(10000 + 1/2 : ℚ)⌋ := Int.floor_mono (by linarith)
    have hval : ⌊(10000 + 1/2 : ℚ)⌋ = 10000 := by
      rw [Int.floor_eq_iff]
      constructor <;> norm_num
    rw [hval] at hmono
    have hcast : ((⌊(s * (2/10) + (100 - b) * (4/10) + c * (4/10)) * 100
        + 1/2⌋ : ℤ) : ℚ) ≤ (10000 : ℚ) := by exact_mod_cast hmono
    linarith

/-- Closed witness for C2 amended, at stage scores `50/50/50`. -/
theorem C2_amended_witness :
    0 ≤ calculate_overall_score (some 50) (some 50) (some 50) ∧
    calculate_overall_score (some 50) (some 50) (some 50) ≤ 100 :=
  ⟨(C2_amended 50 50 50 (by norm_num) (by norm_num) (by norm_num) (by norm_num)
      (by norm_num) (by norm_num)).2.1,
    (C2_amended 50 50 50 (by norm_num) (by norm_num) (by norm_num) (by norm_num)
      (by norm_num) (by norm_num)).2.2⟩

/-- Claim C1 as written is false: the `/analyze` route performs no
request coalescing.  Two requests for the same video url with no prior
cache entry (the first's background job has not yet run, so the cache stays
empty between them) each create their own `pending` analysis row and return
two distinct handles (`analysisId 0` and `analysisId 1`); afterwards two
non-terminal sessions for the same `content_id` coexist.  Since even this
serialized interleaving of the two calls yields distinct sessions,
concurrent calls cannot always agree either. -/
theorem C1_counterexample :
    (postAnalyze initialServerState 0 "https://youtu.be/v" none).2.1 =
      .accepted 0 ∧
    (postAnalyze (postAnalyze initialServerState 0 "https://youtu.be/v" none).1
        0 "https://youtu.be/v" none).2.1 = .accepted 1 ∧
    AnalyzeResponse.accepted 0 ≠ AnalyzeResponse.accepted 1 ∧
    ((postAnalyze (postAnalyze initialServerState 0 "https://youtu.be/v" none).1
        0 "https://youtu.be/v" none).1.analyses.filter
      (fun a => a.videoUrl = "https://youtu.be/v" ∧ a.status = "pending")).length
      = 2 := by
  refine ⟨rfl, rfl, by decide, rfl⟩

/-- Claim C1 amended: every `/analyze` request that misses the cache creates
a fresh session with a fresh id — no coalescing check against in-flight
sessions exists, so a second cache-missing request for the same url (the
cache is untouched by the first call itself) receives a distinct handle,
and the at-most-one-in-flight-session-per-content-id invariant does not
hold. -/
theorem C1_amended (st : ServerState) (now : Nat) (u : String)
    (uid : Option String)
    (hmiss : RedisService.get st.cache now ("analysis:" ++ u) = none) :
    (postAnalyze st now u uid).2.1 = .accepted st.nextId ∧
    (postAnalyze st now u uid).1.cache = st.cache ∧
    (postAnalyze st now u uid).1.analyses = st.analyses ++
      [{ id := st.nextId, videoUrl := u, userId := uid, status := "pending",
          progress := 0, result := none, error := none }] ∧
    (postAnalyze (postAnalyze st now u uid).1 now u uid).2.1 =
      .accepted (st.nextId + 1) ∧
    AnalyzeResponse.accepted st.nextId ≠ .accepted (st.nextId + 1) := by
  refine ⟨?_, ?_, ?_, ?_, by simp⟩ <;> simp [postAnalyze, hmiss]

/-- Closed witness for C1 amended: both cache-missing calls on the empty
server state, yielding handles `0` and `1`. -/
theorem C1_amended_witness :
    (postAnalyze initialServerState 0 "u" none).2.1 = .accepted 0 ∧
    (postAnalyze initialServerState 0 "u" none).1.cache =
      initialServerState.cache ∧
    (postAnalyze initialServerState 0 "u" none).1.analyses =
      initialServerState.analyses ++
      [{ id := 0, videoUrl := "u", userId := none, status := "pending",
          progress := 0, result := none, error := none }] ∧
    (postAnalyze (postAnalyze initialServerState 0 "u" none).1 0 "u"
        none).2.1 = .accepted 1 ∧
    AnalyzeResponse.accepted 0 ≠ .accepted 1 :=
  C1_amended initialServerState 0 "u" none rfl

/-- Claim C3: when a fresh (non-expired) cache entry exists for the url, the
`/analyze` route answers immediately with the cached, already-completed
result (`status: 'completed'`, `cached: true`); the server state is
untouched (no new session row), and no background job is scheduled — hence
no scorer runs and nothing beyond the immediate terminal cached answer is
ever emitted for this request.  The route has no `force_refresh` input at
all, so every call, in particular any call with `force_refresh` false,
takes this path on a cache hit. -/
theorem C3_cached_path (st : ServerState) (now : Nat) (u : String)
    (uid : Option String) (c : CachedAnalysis)
    (hhit : RedisService.get st.cache now ("analysis:" ++ u) = some c) :
    postAnalyze st now u uid = (st, .cached c.analysisId c.result, none) := by
  simp [postAnalyze, hhit]

/-- Closed witness for C3 at a server state holding one fresh cache entry. -/
theorem C3_cached_path_witness :
    postAnalyze ⟨⟨[("analysis:u", ⟨7, ⟨1, 2, 3, 4⟩⟩, 3600)]⟩, [], 1⟩ 0 "u" none
      = (⟨⟨[("analysis:u", ⟨7, ⟨1, 2, 3, 4⟩⟩, 3600)]⟩, [], 1⟩,
          .cached 7 ⟨1, 2, 3, 4⟩, none) :=
  C3_cached_path ⟨⟨[("analysis:u", ⟨7, ⟨1, 2, 3, 4⟩⟩, 3600)]⟩, [], 1⟩ 0 "u"
    none ⟨7, ⟨1, 2, 3, 4⟩⟩ rfl

/-- Claim C4 as written is false: a failing scorer invocation is never
retried.  With an analysis behaviour that fails on attempt `0` but would
succeed on attempt `1`, the handler invokes the analysis exactly once
(count `1`, not the `2` a single retry would produce) and reports the error
— it does not recover even though the retry the claim requires would have
succeeded. -/
theorem C4_counterexample :
    (handleAnalysisRequest (π := String) (some "https://youtu.be/v") none
        (.ok "payload")
        (fun attempt => if attempt = 0 then .error "scorer down"
          else .ok "recovered")) =
      ([.analysis_started (some "https://youtu.be/v") none,
          .error "scorer down"], 1) ∧
    (1 : Nat) ≠ 2 := by
  refine ⟨?_, by decide⟩
  rfl

/-- Claim C4 amended: a failing analysis invocation is not retried — the
first failure terminates the whole request with the originating error
recorded in the emitted `error` message, the analysis is invoked exactly
once, and no completed (hence no partial) result is ever sent to the
caller, so failure is still all-or-nothing. -/
theorem C4_amended {π ρ : Type} (videoUrl videoId : Option String) (pay : π)
    (analyzeVideo : Nat → Except String ρ) (e : String)
    (hpresent : ¬(videoUrl = none ∧ videoId = none))
    (hfail : analyzeVideo 0 = .error e) :
    handleAnalysisRequest videoUrl videoId (.ok pay) analyzeVideo =
      ([.analysis_started videoUrl videoId, .error e], 1) ∧
    (∀ r : ρ, WsOut.analysis_completed r ∉
      (handleAnalysisRequest videoUrl videoId (.ok pay) analyzeVideo).1) := by
  have h1 : handleAnalysisRequest videoUrl videoId (.ok pay) analyzeVideo =
      ([.analysis_started videoUrl videoId, .error e], 1) := by
    simp [handleAnalysisRequest, hpresent, hfail]
  refine ⟨h1, fun r => ?_⟩
  rw [h1]
  simp

/-- Closed witness for C4 amended, with a concretely failing analysis. -/
theorem C4_amended_witness :
    handleAnalysisRequest (π := String) (ρ := String) (some "u") none
        (.ok "payload") (fun _ => .error "boom") =
      ([.analysis_started (some "u") none, .error "boom"], 1) ∧
    (∀ r : String, WsOut.analysis_completed r ∉
      (handleAnalysisRequest (π := String) (some "u") none (.ok "payload")
        (fun _ => .error "boom")).1) :=
  C4_amended (some "u") none "payload" (fun _ => .error "boom") "boom"
    (by simp) rfl

/-- Claim C5 as written is false: the realtime pipeline accepts no
requested-stage subset and its progress payloads are hardcoded.  A run
emits four intermediate stage events (at 20/40/60/80 percent), not the two
events at 50 and 100 percent the claim requires for a two-stage request. -/
theorem C5_counterexample :
    (stageEvents (analyze_video_realtime "vid")).length = 4 ∧
    (stageEvents (analyze_video_realtime "vid")).length ≠ 2 ∧
    (stageEvents (analyze_video_realtime "vid")).map RealtimeEvent.progress ≠
      [50, 100] := by
  refine ⟨rfl, by decide, by decide⟩

/-- Claim C5 amended: for every video id the realtime pipeline emits the
same fixed event sequence — `started(0)`, then stage events
`collecting_data(20)`, `sentiment_analysis(40)`, `bias_detection(60)`,
`credibility_analysis(80)`, then `completed(100)` — whose progress
percentages are strictly increasing. -/
theorem C5_amended (video_id : String) :
    analyze_video_realtime video_id =
      [⟨"started", 0⟩, ⟨"collecting_data", 20⟩, ⟨"sentiment_analysis", 40⟩,
        ⟨"bias_detection", 60⟩, ⟨"credibility_analysis", 80⟩,
        ⟨"completed", 100⟩] ∧
    List.Chain' (fun a b => a.progress < b.progress)
      (analyze_video_realtime video_id) := by
  refine ⟨rfl, ?_⟩
  have h : analyze_video_realtime video_id =
      [⟨"started", 0⟩, ⟨"collecting_data", 20⟩, ⟨"sentiment_analysis", 40⟩,
        ⟨"bias_detection", 60⟩, ⟨"credibility_analysis", 80⟩,
        ⟨"completed", 100⟩] := rfl
  rw [h]
  norm_num [List.chain'_cons]

/-- A cancelled session has no outgoing lifecycle transition. -/
lemma sessionStep_cancelled_elim (t : SessionState) :
    ¬ SessionStep .Cancelled t := by
  intro h
  cases h

/-- Anything lifecycle-reachable from `Cancelled` is `Cancelled` itself. -/
lemma reachable_from_cancelled (t : SessionState)
    (h : Relation.ReflTransGen SessionStep .Cancelled t) : t = .Cancelled := by
  rcases Relation.ReflTransGen.cases_head h with heq | ⟨c, hstep, _⟩
  · exact heq.symm
  · exact absurd hstep (sessionStep_cancelled_elim c)

/-- Claim C7 (over the spec-modelled session machine, since the repository
never defines the referenced `handle_cancel_analysis`): cancelling a
`Pending` session moves it to `Cancelled` and returns true, and no
lifecycle transition can ever bring it to `Running` afterwards; cancelling
an already-terminal session returns false and leaves the state unchanged. -/
theorem C7_cancel_semantics :
    cancelSession .Pending = (.Cancelled, true) ∧
    (∀ t : SessionState,
      Relation.ReflTransGen SessionStep (cancelSession .Pending).1 t →
        t ≠ .Running) ∧
    (∀ s : SessionState, s.isTerminal = true → cancelSession s = (s, false)) := by
  refine ⟨rfl, fun t h => ?_, fun s hs => ?_⟩
  · have ht : t = .Cancelled := reachable_from_cancelled t h
    rw [ht]
    intro hcontr
    cases hcontr
  · cases s <;> simp_all [cancelSession, SessionState.isTerminal]

/-- Closed witness for C7: the pending-cancel result, its unreachability of
`Running` at the reflexive endpoint, and a terminal (`Completed`) cancel. -/
theorem C7_cancel_semantics_witness :
    cancelSession .Pending = (.Cancelled, true) ∧
    SessionState.Cancelled ≠ .Running ∧
    cancelSession .Completed = (.Completed, false) :=
  ⟨C7_cancel_semantics.1,
    C7_cancel_semantics.2.1 .Cancelled Relation.ReflTransGen.refl,
    C7_cancel_semantics.2.2 .Completed rfl⟩

/-- Claim C8 as written is false: `process_videos` collects each task's
`task.result()`, and a failed task's `result()` re-raises its exception,
aborting the whole comprehension.  A batch of five items where item 3 fails
returns the raised error — not four successes plus one recorded failure
under a `PartialSuccess` status. -/
theorem C8_counterexample :
    process_videos [.ok "r1", .ok "r2", .error "item 3 failed", .ok "r4",
        .ok "r5"] = .error "item 3 failed" ∧
    process_videos [.ok "r1", .ok "r2", .error "item 3 failed", .ok "r4",
        .ok "r5"] ≠ .ok ["r1", "r2", "r4", "r5"] := by
  exact ⟨rfl, fun h => nomatch h⟩

/-- Claim C8 amended: one failing item aborts the whole batch — whenever any
completed task failed, `process_videos` raises an error and produces no
per-item result map; only a batch in which every item succeeded returns the
full result list. -/
theorem C8_amended {ρ : Type} (outcomes : List (Except String ρ)) :
    ((∃ e, Except.error e ∈ outcomes) →
      ∃ e', process_videos outcomes = .error e') ∧
    (∀ rs : List ρ, outcomes = rs.map .ok →
      process_videos outcomes = .ok rs) := by
  constructor
  · rintro ⟨e, hmem⟩
    induction outcomes with
    | nil => cases hmem
    | cons hd tl ih =>
        cases hd with
        | error e' => exact ⟨e', rfl⟩
        | ok r =>
            have hmem' : Except.error e ∈ tl := by
              cases hmem with
              | tail _ h => exact h
            obtain ⟨e', he'⟩ := ih hmem'
            exact ⟨e', by simp [process_videos, he', Except.map]⟩
  · intro rs hrs
    subst hrs
    induction rs with
    | nil => rfl
    | cons hd tl ih => simp [process_videos, ih, Except.map]

/-- Closed witness for C8 amended, on a two-item batch whose second item
failed. -/
theorem C8_amended_witness :
    ∃ e', process_videos (ρ := String) [.ok "a", .error "x"] = .error e' :=
  (C8_amended [.ok "a", .error "x"]).1 ⟨"x", by simp⟩

/-- The empty Socket.IO hub: no rooms joined, nothing delivered yet. -/
def emptyHub : HubState := ⟨fun _ => [], fun _ => []⟩

/-- Delivering an event never changes room membership. -/
lemma deliver_rooms (l : List SocketId) (ev : SocketEvent) (st : HubState) :
    (deliver st l ev).rooms = st.rooms := by
  induction l generalizing st with
  | nil => rfl
  | cons sid rest ih => simpa [deliver] using ih _

/-- After delivery to the sockets `l`, a socket's inbox has gained one copy
of the event per occurrence of the socket in `l`, appended in order. -/
lemma deliver_inboxes (l : List SocketId) (ev : SocketEvent) (st : HubState)
    (s : SocketId) :
    (deliver st l ev).inboxes s =
      st.inboxes s ++ List.replicate (l.count s) ev := by
  induction l generalizing st with
  | nil => simp [deliver]
  | cons sid rest ih =>
      rw [deliver, ih]
      by_cases hs : s = sid
      · subst hs
        simp [Function.update_same, List.count_cons, List.replicate_succ]
      · have hne : sid ≠ s := fun h => hs h.symm
        simp [Function.update_noteq hs, List.count_cons, hne]

/-- An emission leaves room membership unchanged. -/
lemma emitEvent_rooms (st : HubState) (ev : SocketEvent) :
    (emitEvent st ev).rooms = st.rooms :=
  deliver_rooms _ _ _

/-- An emission appends the event once to the inbox of a socket that sits in
the target room exactly once. -/
lemma emitEvent_inboxes (st : HubState) (ev : SocketEvent) (s : SocketId)
    (hone : (st.rooms ev.room).count s = 1) :
    (emitEvent st ev).inboxes s = st.inboxes s ++ [ev] := by
  rw [emitEvent, deliver_inboxes, hone]
  rfl

/-- Claim C9 as written is false: `subscribe_analysis` merely joins the
Socket.IO room.  After the terminal `analysis_complete` event for analysis
`"123"` has been emitted (to a room with no members), a late subscriber
receives nothing — its inbox stays empty instead of getting the terminal
event — and it *is* registered as a live room member, which the claim
forbids for already-terminal sessions. -/
theorem C9_counterexample :
    (subscribeAnalysis (emitEvent emptyHub (.analysis_complete "123" "done"))
        "sock" "123").inboxes "sock" = [] ∧
    "sock" ∈ (subscribeAnalysis
        (emitEvent emptyHub (.analysis_complete "123" "done"))
        "sock" "123").rooms "123" := by
  constructor
  · rfl
  · show "sock" ∈ (subscribeAnalysis emptyHub "sock" "123").rooms "123"
    simp [subscribeAnalysis, emptyHub, Function.update_same]

/-- Claim C9 amended: `subscribe_analysis` performs no terminal-state check
and no event replay — it always registers the socket as a live room member
and never delivers past events (the new subscriber's inbox is untouched);
for events emitted while subscribed, a socket that is in the room exactly
once receives them appended in exactly the emission order. -/
theorem C9_amended (st : HubState) (s : SocketId) (a : AnalysisId)
    (evs : List SocketEvent)
    (hroom : ∀ ev ∈ evs, ev.room = a)
    (hone : ((subscribeAnalysis st s a).rooms a).count s = 1) :
    (subscribeAnalysis st s a).inboxes = st.inboxes ∧
    s ∈ (subscribeAnalysis st s a).rooms a ∧
    (runEmits (subscribeAnalysis st s a) evs).inboxes s =
      st.inboxes s ++ evs := by
  refine ⟨rfl, ?_, ?_⟩
  · simp only [subscribeAnalysis, Function.update_same]
    by_cases hmem : s ∈ st.rooms a
    · simp [hmem]
    · simp [hmem]
  · have key : ∀ (evs' : List SocketEvent) (st' : HubState),
        (∀ ev ∈ evs', ev.room = a) → ((st'.rooms a).count s = 1) →
        (runEmits st' evs').inboxes s = st'.inboxes s ++ evs' := by
      intro evs'
      induction evs' with
      | nil => intro st' _ _; simp [runEmits]
      | cons ev rest ih =>
          intro st' hroom' hone'
          have hev : ev.room = a := hroom' ev (by simp)
          have hstep : (emitEvent st' ev).inboxes s = st'.inboxes s ++ [ev] := by
            apply emitEvent_inboxes
            rw [hev]
            exact hone'
          have hcount : ((emitEvent st' ev).rooms a).count s = 1 := by
            rw [emitEvent_rooms]
            exact hone'
          have := ih (emitEvent st' ev) (fun e he => hroom' e (by simp [he]))
            hcount
          calc (runEmits st' (ev :: rest)).inboxes s
              = (runEmits (emitEvent st' ev) rest).inboxes s := rfl
            _ = (emitEvent st' ev).inboxes s ++ rest := this
            _ = st'.inboxes s ++ (ev :: rest) := by rw [hstep]; simp
    have h1 := key evs (subscribeAnalysis st s a) hroom hone
    rw [h1]
    rfl

/-- Closed witness for C9 amended: a fresh subscriber on the empty hub
receives two subsequent emissions for its analysis, in order. -/
theorem C9_amended_witness :
    (subscribeAnalysis emptyHub "s" "a").inboxes = emptyHub.inboxes ∧
    "s" ∈ (subscribeAnalysis emptyHub "s" "a").rooms "a" ∧
    (runEmits (subscribeAnalysis emptyHub "s" "a")
        [.analysis_progress "a" 50 "processing" "m1",
          .analysis_complete "a" "done"]).inboxes "s" =
      emptyHub.inboxes "s" ++
        [.analysis_progress "a" 50 "processing" "m1",
          .analysis_complete "a" "done"] :=
  C9_amended emptyHub "s" "a"
    [.analysis_progress "a" 50 "processing" "m1",
      .analysis_complete "a" "done"]
    (by intro ev hev
        simp only [List.mem_cons, List.mem_singleton] at hev
        rcases hev with h | h | h
        · rw [h]; rfl
        · rw [h]; rfl
        · cases h)
    (by simp [subscribeAnalysis, emptyHub, Function.update_same])

/-- Closed witness for C5 amended at a concrete video id. -/
theorem C5_amended_witness :
    analyze_video_realtime "dQw4w9WgXcQ" =
      [⟨"started", 0⟩, ⟨"collecting_data", 20⟩, ⟨"sentiment_analysis", 40⟩,
        ⟨"bias_detection", 60⟩, ⟨"credibility_analysis", 80⟩,
        ⟨"completed", 100⟩] ∧
    List.Chain' (fun a b => a.progress < b.progress)
      (analyze_video_realtime "dQw4w9WgXcQ") :=
  C5_amended "dQw4w9WgXcQ"

/-- Claim C10: the committed scores are a function of the random draws
alone.  The Node route's background job builds its
credibility/bias/factuality/overall scores from four `Math.random()` draws
with the video url unused, and the extension's offline mock generator
builds its scores from its four draws with both the video data and the
clock unused — so any two video inputs processed with the same draws get
identical scores; conversely the same video with different draws gets
different scores (shown at draws `0,0,0,0` versus `0,0,1/2,0`, which differ
in the sentiment score). -/
theorem C10_scores_from_randomness_only :
    (∀ (u1 u2 : String) (d : RandomDraws),
      backgroundJobResult u1 d = backgroundJobResult u2 d) ∧
    (∀ (v1 v2 : Option VideoData) (t1 t2 : Nat) (d : MockDraws),
      (generateMockAnalysis v1 t1 d).scores =
        (generateMockAnalysis v2 t2 d).scores) ∧
    (generateMockAnalysis none 0 ⟨0, 0, 0, 0⟩).scores ≠
      (generateMockAnalysis none 0 ⟨0, 0, 1/2, 0⟩).scores := by
  refine ⟨fun _ _ _ => rfl, fun _ _ _ _ _ => rfl, ?_⟩
  intro h
  have hsent := congrArg (fun t : ℤ × ℤ × ℚ × ℚ × ℤ × ℤ => t.2.2.1) h
  simp only [MockAnalysis.scores, generateMockAnalysis] at hsent
  norm_num at hsent

/-- Closed witness for C10 at two concrete video inputs and draw vectors. -/
theorem C10_scores_from_randomness_only_witness :
    backgroundJobResult "https://youtu.be/a" ⟨1/4, 1/3, 1/2, 2/3⟩ =
      backgroundJobResult "https://youtu.be/b" ⟨1/4, 1/3, 1/2, 2/3⟩ ∧
    (generateMockAnalysis (some ⟨"t1", "d1", "c1", "u1"⟩) 11
        ⟨1/4, 1/3, 1/2, 2/3⟩).scores =
      (generateMockAnalysis (some ⟨"t2", "d2", "c2", "u2"⟩) 22
        ⟨1/4, 1/3, 1/2, 2/3⟩).scores :=
  ⟨C10_scores_from_randomness_only.1 "https://youtu.be/a" "https://youtu.be/b"
      ⟨1/4, 1/3, 1/2, 2/3⟩,
    C10_scores_from_randomness_only.2.1 (some ⟨"t1", "d1", "c1", "u1"⟩)
      (some ⟨"t2", "d2", "c2", "u2"⟩) 11 22 ⟨1/4, 1/3, 1/2, 2/3⟩⟩

end InfoGuard
